import Mathlib

/-!
Verification development for the EDmyner journal ingestion core.

The repository contains two parallel ingestion implementations
(`src/services/service_gamelog.py` and `src/ed_log_reader.py`) plus the
shared store layer (`src/core/core_database.py`), a thin journal helper
(`src/journal_reader.py`), the reader-side accessors
(`src/ed_mining_scanner.py`) and two launcher collaborators
(`src/start.py`, `src/windows/win_mining.py`).  Each Python function
relevant to the claims is translated below into an executable Lean
definition; numeric journal quantities (proportions, percentages,
remaining mass) are modelled as exact rationals, SQLite integer columns
as `Int`/`Nat`, and Python `dict.get` access as `Option` fields with the
source defaults applied at the use site.
-/

/-- Python string truthiness for an optional string field:
`if x:` is true exactly when the field is present and non-empty. -/
def pyTruthyStr (o : Option String) : Bool :=
  match o with
  | none => false
  | some s => s ≠ ""

/-- Does `pat` occur at the head of `l`? (helper for substring tests). -/
def subAt : List Char → List Char → Bool
  | _, [] => true
  | [], _ :: _ => false
  | c :: cs, p :: ps => c == p && subAt cs ps

/-- Does `pat` occur anywhere in `l`? (helper for substring tests). -/
def hasSub : List Char → List Char → Bool
  | [], pat => pat.isEmpty
  | c :: rest, pat => subAt (c :: rest) pat || hasSub rest pat

/-- Python `pat in s` substring test on strings. -/
def strContains (s pat : String) : Bool :=
  hasSub s.toList pat.toList

/-- Python `s.lower()` (ASCII case folding, as in the journal data). -/
def lowerStr (s : String) : String :=
  String.mk (s.toList.map Char.toLower)

/-- Python `s.startswith(pat)`. -/
def strStarts (s pat : String) : Bool :=
  subAt s.toList pat.toList

/-- Python `s.endswith(pat)`. -/
def strEnds (s pat : String) : Bool :=
  subAt s.toList.reverse pat.toList.reverse

/-- Python `s.replace(old, new)` for the `'_Name'` suffix cleanup;
replaces every occurrence of `old` (non-overlapping, left to right). -/
def replaceSub : List Char → List Char → List Char → List Char
  | [], _, _ => []
  | c :: rest, old, new =>
    if h : (subAt (c :: rest) old && !old.isEmpty) = true then
      new ++ replaceSub ((c :: rest).drop old.length) old new
    else
      c :: replaceSub rest old new
termination_by l _ _ => l.length
decreasing_by
  · simp only [Bool.and_eq_true, Bool.not_eq_true', List.isEmpty_eq_false] at h
    have hold : 0 < old.length := List.length_pos.mpr h.2
    simp only [List.length_drop, List.length_cons]
    omega
  · simp

/-- Python `s.replace(old, new)` on strings. -/
def strReplace (s old new : String) : String :=
  String.mk (replaceSub s.toList old.toList new.toList)

/-- One entry of a `ProspectedAsteroid` event's `Materials` list, with the
JSON fields the two handlers read (`Name`, `Name_Localised`, `Proportion`). -/
structure MaterialEntry where
  name : Option String := none
  nameLocalised : Option String := none
  proportion : Option Rat := none
deriving Repr, DecidableEq

/-- A module entry of a `Loadout` event; the handler only reads the
optional `CargoCapacity` field (`'CargoCapacity' in module`). -/
structure LoadoutModule where
  cargoCapacity : Option Int := none
deriving Repr, DecidableEq

/-- An inventory entry of a `Cargo` event (`Name`, `Count`). -/
structure InvItem where
  name : Option String := none
  count : Option Int := none
deriving Repr, DecidableEq

/-- A decoded journal event record: the discriminator `event` plus every
payload field read by the handlers under verification.  Absent JSON keys
are `none`; handlers apply the `dict.get` defaults of the source. -/
structure EventRecord where
  event : String := ""
  timestamp : Option String := none
  commander : Option String := none
  credits : Option Int := none
  starSystem : Option String := none
  modules : Option (List LoadoutModule) := none
  inventory : Option (List InvItem) := none
  materials : Option (List MaterialEntry) := none
  content : Option String := none
  contentLocalised : Option String := none
  remaining : Option Rat := none
  motherlodeAmount : Option Int := none
  motherlodeMaterial : Option String := none
  typ : Option String := none
  typeLocalised : Option String := none
  signalName : Option String := none
  signalNameLocalised : Option String := none
  isStation : Option Bool := none
  systemAddress : Option Int := none
  channel : Option String := none
  fromLocalised : Option String := none
  messageLocalised : Option String := none
  totalSale : Option Int := none
  totalCost : Option Int := none
  baseValue : Option Int := none
  bonus : Option Int := none
deriving Repr, DecidableEq

/-- A row of the `prospected_asteroids` table (columns relevant to the
claims; the wall-clock capture column is modelled separately where it
matters).  SQLite 0/1 integer flags are modelled as `Bool`. -/
structure AsteroidRow where
  journal_timestamp : String
  material_name : String
  percentage : Rat
  is_motherlode : Bool
  content_level : String
  is_surface : Bool
  is_deepcore : Bool
  remaining : Rat
  processed : Bool
deriving Repr, DecidableEq

/-- `LogReaderService._handle_prospected_asteroid` from
`src/ed_log_reader.py` (lines 669-750) combined with
`DatabaseManager.add_prospected_asteroid` (lines 235-265): returns the
list of rows the event inserts, in insertion order.  The INSERT of
`add_prospected_asteroid` does not name the `is_surface` and `processed`
columns, so they take the schema defaults 1 and 0. -/
def handle_prospected_asteroid_edlr (e : EventRecord) : List AsteroidRow :=
  let timestamp := e.timestamp.getD ""
  let materials := e.materials.getD []
  let content := e.contentLocalised.getD "Unknown"
  let remaining := e.remaining.getD 100
  let content_level :=
    if strContains content "Low" then "Low"
    else if strContains content "Medium" then "Medium"
    else if strContains content "High" then "High"
    else "Unknown"
  let surfaceRows := materials.map (fun m =>
    ({ journal_timestamp := timestamp
       material_name := m.nameLocalised.getD (m.name.getD "Unknown")
       percentage := m.proportion.getD 0
       is_motherlode := false
       content_level := content_level
       is_surface := true
       is_deepcore := false
       remaining := remaining
       processed := false } : AsteroidRow))
  if pyTruthyStr e.motherlodeMaterial then
    surfaceRows ++
      [{ journal_timestamp := timestamp
         material_name := e.motherlodeMaterial.getD ""
         percentage := 100
         is_motherlode := true
         content_level := content_level
         is_surface := true
         is_deepcore := true
         remaining := remaining
         processed := false }]
  else surfaceRows

/-- `JournalProcessor._handle_ProspectedAsteroid` from
`src/services/service_gamelog.py` (lines 252-287): one row per
`Materials` entry, `percentage = Proportion * 100`, flags driven by
`data.get('MotherlodeAmount', 0)`, `content_level` taken verbatim from
`data.get('Content', 'Unknown')`, and no separate motherlode row.
`now_iso` models `datetime.utcnow().isoformat()`, the default for a
missing `timestamp` field. -/
def handle_ProspectedAsteroid_gamelog (e : EventRecord) (now_iso : String) :
    List AsteroidRow :=
  let materials := e.materials.getD []
  let content := e.content.getD "Unknown"
  let remaining := e.remaining.getD 100
  let motherlode := e.motherlodeAmount.getD 0
  let timestamp := e.timestamp.getD now_iso
  materials.map (fun m =>
    let name0 := m.name.getD "Unknown"
    let material_name :=
      if strContains name0 "_Name" then strReplace name0 "_Name" "" else name0
    ({ journal_timestamp := timestamp
       material_name := material_name
       percentage := m.proportion.getD 0 * 100
       is_motherlode := motherlode > 0
       content_level := content
       is_surface := motherlode == 0
       is_deepcore := motherlode > 0
       remaining := remaining
       processed := false } : AsteroidRow))

/-- The singleton `game_state` row (`core_database.py` schema, lines
135-147).  The nullable `log_file_path` column's NULL is modelled as the
empty string; `last_updated` models the `CURRENT_TIMESTAMP` column as an
abstract clock value. -/
structure GameState where
  commander_name : String
  current_system : String
  log_file_path : String
  last_updated : Nat
deriving Repr, DecidableEq

/-- The singleton `ship_status` row (`core_database.py` lines 150-160). -/
structure ShipStatus where
  cargo_capacity : Int
  cargo_count : Int
  limpet_count : Int
  commander_credits : Int
  last_updated : Nat
deriving Repr, DecidableEq

/-- The singleton `service_status` row (`core_database.py` lines
230-243).  NULL `pid`/`journal_file` are modelled as 0 / empty string. -/
structure ServiceStatus where
  is_running : Int
  pid : Int
  last_heartbeat : String
  journal_file : String
  scan_interval : Rat
deriving Repr, DecidableEq

/-- The keyword arguments of a `DatabaseManager.update_game_state(**kwargs)`
call (`core_database.py` lines 285-294): `some v` means the caller named
that column with value `v`, `none` that the column is absent from the
UPDATE's SET list. -/
structure GameStateUpdate where
  commander_name : Option String := none
  current_system : Option String := none
  log_file_path : Option String := none
deriving Repr, DecidableEq

/-- Keyword arguments of `DatabaseManager.update_ship_status(**kwargs)`
(`core_database.py` lines 306-315). -/
structure ShipStatusUpdate where
  cargo_capacity : Option Int := none
  cargo_count : Option Int := none
  limpet_count : Option Int := none
  commander_credits : Option Int := none
deriving Repr, DecidableEq

/-- Keyword arguments of `DatabaseManager.update_service_status(**kwargs)`
(`core_database.py` lines 460-468). -/
structure ServiceStatusUpdate where
  is_running : Option Int := none
  pid : Option Int := none
  last_heartbeat : Option String := none
  journal_file : Option String := none
  scan_interval : Option Rat := none
deriving Repr, DecidableEq

/-- `DatabaseManager.update_game_state` from `src/core/core_database.py`
(lines 285-294): applies exactly the named columns to the id=1 row and
always refreshes `last_updated` with `CURRENT_TIMESTAMP` (modelled by
`now`).  With zero keyword arguments the generated SQL
`UPDATE game_state SET , last_updated = ...` is malformed and sqlite
raises, modelled as `Except.error`. -/
def update_game_state (u : GameStateUpdate) (now : Nat) (g : GameState) :
    Except String GameState :=
  if u.commander_name.isNone && u.current_system.isNone && u.log_file_path.isNone then
    Except.error "malformed UPDATE statement"
  else
    Except.ok
      { commander_name := u.commander_name.getD g.commander_name
        current_system := u.current_system.getD g.current_system
        log_file_path := u.log_file_path.getD g.log_file_path
        last_updated := now }

/-- `DatabaseManager.update_ship_status` from `src/core/core_database.py`
(lines 306-315), same shape as `update_game_state`. -/
def update_ship_status (u : ShipStatusUpdate) (now : Nat) (s : ShipStatus) :
    Except String ShipStatus :=
  if u.cargo_capacity.isNone && u.cargo_count.isNone && u.limpet_count.isNone &&
      u.commander_credits.isNone then
    Except.error "malformed UPDATE statement"
  else
    Except.ok
      { cargo_capacity := u.cargo_capacity.getD s.cargo_capacity
        cargo_count := u.cargo_count.getD s.cargo_count
        limpet_count := u.limpet_count.getD s.limpet_count
        commander_credits := u.commander_credits.getD s.commander_credits
        last_updated := now }

/-- `DatabaseManager.update_service_status` from
`src/core/core_database.py` (lines 460-468): only the named columns are
written; this updater has no automatic timestamp column. -/
def update_service_status (u : ServiceStatusUpdate) (v : ServiceStatus) :
    Except String ServiceStatus :=
  if u.is_running.isNone && u.pid.isNone && u.last_heartbeat.isNone &&
      u.journal_file.isNone && u.scan_interval.isNone then
    Except.error "malformed UPDATE statement"
  else
    Except.ok
      { is_running := u.is_running.getD v.is_running
        pid := u.pid.getD v.pid
        last_heartbeat := u.last_heartbeat.getD v.last_heartbeat
        journal_file := u.journal_file.getD v.journal_file
        scan_interval := u.scan_interval.getD v.scan_interval }

/-- `DatabaseManager.update_game_state` from `src/ed_log_reader.py`
(lines 200-233): positional optional arguments guarded by Python
truthiness (`if commander:`); a column is written only when its argument
is truthy, and `last_updated` is refreshed only when at least one column
is written (otherwise the UPDATE is skipped entirely). -/
def update_game_state_edlr (commander system log_path : Option String)
    (now : Nat) (g : GameState) : GameState :=
  if pyTruthyStr commander || pyTruthyStr system || pyTruthyStr log_path then
    { commander_name :=
        if pyTruthyStr commander then commander.getD g.commander_name
        else g.commander_name
      current_system :=
        if pyTruthyStr system then system.getD g.current_system
        else g.current_system
      log_file_path :=
        if pyTruthyStr log_path then log_path.getD g.log_file_path
        else g.log_file_path
      last_updated := now }
  else g

/-- Handler-level call of `update_game_state` through the surrounding
`try/except` of the `JournalProcessor` handlers: a store-write failure
is logged and leaves the store unchanged. -/
def applyGS (u : GameStateUpdate) (now : Nat) (g : GameState) : GameState :=
  match update_game_state u now g with
  | Except.ok g' => g'
  | Except.error _ => g

/-- Handler-level call of `update_ship_status` through `try/except`. -/
def applySS (u : ShipStatusUpdate) (now : Nat) (s : ShipStatus) : ShipStatus :=
  match update_ship_status u now s with
  | Except.ok s' => s'
  | Except.error _ => s

/-- A row of the `chat_messages` table (`core_database.py` lines
256-267); the `last_seen` wall-clock column is irrelevant to the claims
and omitted. -/
structure ChatRow where
  journal_timestamp : String
  channel : String
  from_localised : String
  message_localised : String
  subtype : String
deriving Repr, DecidableEq

/-- The subtype classification of `DatabaseManager.add_chat_message`
(`src/core/core_database.py` lines 483-510): first matching rule wins;
the channel has been lowercased at the top of the method and the sender
display name is lowercased for each substring test. -/
def chat_subtype (channelRaw from_loc : String) : String :=
  let channel := lowerStr channelRaw
  let fl := lowerStr from_loc
  if strContains fl "security" || strContains fl "system defence" then "sec"
  else if strContains fl "pirate" || strContains fl "wing" then "pirate"
  else if channel == "system" || channel == "local" then "system"
  else if channel == "squadron" then "sq"
  else if channel == "friend" then "friends"
  else "other"

/-- `DatabaseManager.add_chat_message` (`src/core/core_database.py`
lines 483-510): appends one row with the lowercased channel and the
derived subtype.  (The method also lowercases the message text for a
`msg_lower` local that the source never uses.) -/
def add_chat_message (d : EventRecord) (chat : List ChatRow) : List ChatRow :=
  let channel := lowerStr (d.channel.getD "unknown")
  let from_loc := d.fromLocalised.getD "Unknown"
  let msg_loc := d.messageLocalised.getD ""
  let ts := d.timestamp.getD ""
  chat ++ [{ journal_timestamp := ts
             channel := channel
             from_localised := from_loc
             message_localised := msg_loc
             subtype := chat_subtype (d.channel.getD "unknown") from_loc }]

/-- A row of the `refined_materials` table (`core_database.py` lines
205-214), wall-clock capture column omitted. -/
structure RefinedRow where
  journal_timestamp : String
  material_name : String
  material_type : String
deriving Repr, DecidableEq

/-- A row of the `fleet_carriers` table (`core_database.py` lines
163-172); `last_seen` is the wall clock of the upsert. -/
structure CarrierRow where
  signal_name : String
  system_address : Int
  system_name : String
  discovered_timestamp : String
  last_seen : Nat
deriving Repr, DecidableEq

/-- A row of the `fss_signals` table (`core_database.py` lines 175-186). -/
structure SignalRow where
  signal_name : String
  signal_type : String
  is_station : Bool
  system_address : Int
  system_name : String
  journal_timestamp : String
  last_seen : Nat
deriving Repr, DecidableEq

/-- `DatabaseManager.add_fleet_carrier` (`core_database.py` lines
329-338): `INSERT OR REPLACE` keyed by the UNIQUE `signal_name` —
any existing row with that name is replaced. -/
def add_fleet_carrier (signal_name : String) (system_address : Int)
    (system_name discovered_timestamp : String) (now : Nat)
    (carriers : List CarrierRow) : List CarrierRow :=
  (carriers.filter (fun c => c.signal_name ≠ signal_name)) ++
    [{ signal_name := signal_name
       system_address := system_address
       system_name := system_name
       discovered_timestamp := discovered_timestamp
       last_seen := now }]

/-- The projected state store: one record per table touched by the
`JournalProcessor` handlers of `src/services/service_gamelog.py`. -/
structure Store where
  game_state : GameState
  ship_status : ShipStatus
  asteroids : List AsteroidRow
  refined : List RefinedRow
  fleet_carriers : List CarrierRow
  fss_signals : List SignalRow
  chat : List ChatRow
deriving Repr, DecidableEq

/-- `JournalProcessor._handle_LoadGame` (`service_gamelog.py` lines
155-167): overwrite the commander name and the credit balance. -/
def handle_LoadGame (d : EventRecord) (now : Nat) (s : Store) : Store :=
  let commander := d.commander.getD "Unknown"
  let credits := d.credits.getD 0
  { s with
    game_state := applyGS { commander_name := some commander } now s.game_state
    ship_status := applySS { commander_credits := some credits } now s.ship_status }

/-- `JournalProcessor._handle_Location` / `_handle_FSDJump`
(`service_gamelog.py` lines 169-185): overwrite the current system. -/
def handle_SystemChange (d : EventRecord) (now : Nat) (s : Store) : Store :=
  let system_name := d.starSystem.getD "Unknown"
  { s with game_state := applyGS { current_system := some system_name } now s.game_state }

/-- The per-module cargo-capacity sum of `_handle_Loadout`
(`service_gamelog.py` lines 202-207): only modules carrying a
`CargoCapacity` key contribute. -/
def loadoutCargoSum (modules : List LoadoutModule) : Int :=
  modules.foldl (fun acc m =>
    match m.cargoCapacity with
    | some c => acc + c
    | none => acc) 0

/-- `JournalProcessor._handle_Loadout` (`service_gamelog.py` lines
199-213): writes the capacity sum to `ship_status.cargo_capacity` only
when the sum is positive; otherwise no store write happens at all. -/
def handle_Loadout (d : EventRecord) (now : Nat) (s : Store) : Store :=
  let cargo_capacity := loadoutCargoSum (d.modules.getD [])
  if cargo_capacity > 0 then
    { s with ship_status :=
        applySS { cargo_capacity := some cargo_capacity } now s.ship_status }
  else s

/-- `JournalProcessor._handle_Cargo` (`service_gamelog.py` lines
215-236): recount cargo and limpets from the manifest, classifying any
item whose lowercased name contains "limpet" as limpets. -/
def handle_Cargo (d : EventRecord) (now : Nat) (s : Store) : Store :=
  let inventory := d.inventory.getD []
  let counts := inventory.foldl (fun (acc : Int × Int) item =>
    let name := lowerStr (item.name.getD "")
    let count := item.count.getD 0
    if strContains name "limpet" then (acc.1, acc.2 + count)
    else (acc.1 + count, acc.2)) (0, 0)
  { s with ship_status :=
      (applySS { cargo_count := some counts.1, limpet_count := some counts.2 }
        now s.ship_status) }

/-- `JournalProcessor._handle_ProspectedAsteroid` at store level:
append the rows of `handle_ProspectedAsteroid_gamelog`. -/
def handle_Prospected_store (d : EventRecord) (now_iso : String) (s : Store) : Store :=
  { s with asteroids := s.asteroids ++ handle_ProspectedAsteroid_gamelog d now_iso }

/-- `JournalProcessor._handle_MiningRefined` (`service_gamelog.py` lines
289-308): append one refined-material row with the `_Name` decoration
stripped and the literal type tag `'mining'`. -/
def handle_MiningRefined (d : EventRecord) (s : Store) : Store :=
  let material_name0 := d.typ.getD "Unknown"
  let material_name :=
    if strContains material_name0 "_Name" then strReplace material_name0 "_Name" ""
    else material_name0
  let timestamp := d.timestamp.getD ""
  { s with refined := s.refined ++
      [{ journal_timestamp := timestamp
         material_name := material_name
         material_type := "mining" }] }

/-- `JournalProcessor._handle_FSSSignalDiscovered` (`service_gamelog.py`
lines 313-335): fleet carriers (signal type contains "FleetCarrier" or
name ends with ")") are upserted; other station signals are appended;
non-station, non-carrier signals are ignored. -/
def handle_FSSSignalDiscovered (d : EventRecord) (now : Nat) (now_iso : String)
    (s : Store) : Store :=
  let signal_name := d.signalName.getD "Unknown"
  let signal_type := d.signalNameLocalised.getD signal_name
  let is_station := d.isStation.getD false
  let system_address := d.systemAddress.getD 0
  let timestamp := d.timestamp.getD now_iso
  let system_name := s.game_state.current_system
  if strContains signal_type "FleetCarrier" || strEnds signal_name ")" then
    { s with fleet_carriers :=
        (add_fleet_carrier signal_name system_address system_name timestamp now
          s.fleet_carriers) }
  else if is_station then
    { s with fss_signals := s.fss_signals ++
        [{ signal_name := signal_name
           signal_type := signal_type
           is_station := is_station
           system_address := system_address
           system_name := system_name
           journal_timestamp := timestamp
           last_seen := now }] }
  else s

/-- `JournalProcessor._handle_ReceiveText` (`service_gamelog.py` lines
340-351): delegate to `add_chat_message`. -/
def handle_ReceiveText (d : EventRecord) (s : Store) : Store :=
  { s with chat := add_chat_message d s.chat }

/-- `JournalProcessor._handle_MarketSell` (`service_gamelog.py` lines
356-371): read the current balance and write the sum. -/
def handle_MarketSell (d : EventRecord) (now : Nat) (s : Store) : Store :=
  let total_sale := d.totalSale.getD 0
  let new_credits := s.ship_status.commander_credits + total_sale
  { s with ship_status :=
      applySS { commander_credits := some new_credits } now s.ship_status }

/-- `JournalProcessor._handle_MarketBuy` (`service_gamelog.py` lines
373-388). -/
def handle_MarketBuy (d : EventRecord) (now : Nat) (s : Store) : Store :=
  let total_cost := d.totalCost.getD 0
  let new_credits := s.ship_status.commander_credits - total_cost
  { s with ship_status :=
      applySS { commander_credits := some new_credits } now s.ship_status }

/-- `JournalProcessor._handle_SellExplorationData` (`service_gamelog.py`
lines 390-405). -/
def handle_SellExplorationData (d : EventRecord) (now : Nat) (s : Store) : Store :=
  let total := d.baseValue.getD 0 + d.bonus.getD 0
  let new_credits := s.ship_status.commander_credits + total
  { s with ship_status :=
      applySS { commander_credits := some new_credits } now s.ship_status }

/-- The `getattr(self, f'_handle_{event}')` dispatch of
`JournalProcessor.process_line` (`service_gamelog.py` lines 140-146):
exact match on the discriminator; `_handle_Docked` and
`_handle_Materials` only log, and unknown discriminators are a logged
no-op. -/
def journal_dispatch (d : EventRecord) (now : Nat) (now_iso : String)
    (s : Store) : Store :=
  if d.event == "LoadGame" then handle_LoadGame d now s
  else if d.event == "Location" then handle_SystemChange d now s
  else if d.event == "FSDJump" then handle_SystemChange d now s
  else if d.event == "Docked" then s
  else if d.event == "Loadout" then handle_Loadout d now s
  else if d.event == "Cargo" then handle_Cargo d now s
  else if d.event == "Materials" then s
  else if d.event == "ProspectedAsteroid" then handle_Prospected_store d now_iso s
  else if d.event == "MiningRefined" then handle_MiningRefined d s
  else if d.event == "FSSSignalDiscovered" then handle_FSSSignalDiscovered d now now_iso s
  else if d.event == "ReceiveText" then handle_ReceiveText d s
  else if d.event == "MarketSell" then handle_MarketSell d now s
  else if d.event == "MarketBuy" then handle_MarketBuy d now s
  else if d.event == "SellExplorationData" then handle_SellExplorationData d now s
  else s

/-- `JournalProcessor.process_line` (`service_gamelog.py` lines
134-150): a line that fails `json.loads` (`none`) is caught by the
`except json.JSONDecodeError` branch — logged and discarded with no
store mutation; a structurally valid line is dispatched by its
discriminator. -/
def process_line (p : Option EventRecord) (now : Nat) (now_iso : String)
    (s : Store) : Store :=
  match p with
  | none => s
  | some d => journal_dispatch d now now_iso s

/-- The per-batch loop of `LogReaderService._run_loop`
(`service_gamelog.py` lines 476-477): `for line in lines:
self.processor.process_line(line)`. -/
def processBatch (lines : List (Option EventRecord)) (now : Nat)
    (now_iso : String) (s : Store) : Store :=
  lines.foldl (fun st l => process_line l now now_iso st) s

/-- A directory entry as seen by the three file locators: the filename
plus the filesystem timestamps (`st_mtime`, `st_ctime`) that two of the
locators consult. -/
structure FileInfo where
  name : String
  mtime : Nat
  ctime : Nat
deriving Repr, DecidableEq

/-- Membership in `glob("Journal.*.log")`: the name decomposes as
`"Journal." ++ token ++ ".log"` with a possibly empty token, i.e. has
the stem and the suffix without overlap. -/
def matchesGlobJournal (n : String) : Bool :=
  strStarts n "Journal." && strEnds n ".log" && decide (12 ≤ n.toList.length)

/-- The filter of `JournalReader._find_latest_journal`
(`ed_log_reader.py` lines 365-368): `f.startswith("Journal.") and
f.endswith(".log")`. -/
def matchesJournalEdlr (n : String) : Bool :=
  strStarts n "Journal." && strEnds n ".log"

/-- Python `max(xs, key=key)` starting from a first element: keeps the
first element among ties, replacing only on a strictly greater key. -/
def pickByKey {α β : Type} [LinearOrder β] (key : α → β) (x : α) (xs : List α) : α :=
  xs.foldl (fun best a => if key best < key a then a else best) x

/-- `JournalMonitor.find_latest_journal` from
`src/services/service_gamelog.py` (lines 53-67):
`max(journal_files, key=lambda f: f.stat().st_mtime)` — selection by
last-modified time; `None` when no file matches. -/
def find_latest_journal_gamelog (dir : List FileInfo) : Option FileInfo :=
  match dir.filter (fun f => matchesGlobJournal f.name) with
  | [] => none
  | f :: fs => some (pickByKey (fun g => g.mtime) f fs)

/-- `JournalReader.get_latest_journal` from `src/journal_reader.py`
(lines 14-24): `max(journals, key=os.path.getctime)` — selection by
creation time. -/
def get_latest_journal_jr (dir : List FileInfo) : Option FileInfo :=
  match dir.filter (fun f => matchesGlobJournal f.name) with
  | [] => none
  | f :: fs => some (pickByKey (fun g => g.ctime) f fs)

/-- `JournalReader._find_latest_journal` from `src/ed_log_reader.py`
(lines 354-380): filters `os.listdir` names by stem/suffix, sorts them
descending and takes the head — i.e. returns the lexicographically
greatest matching filename, never consulting any timestamp. -/
def find_latest_journal_edlr (names : List String) : Option String :=
  match names.filter matchesJournalEdlr with
  | [] => none
  | n :: ns => some (pickByKey id n ns)

/-- Python `file.readlines()` applied to the remaining characters:
splits after every newline, keeping the newline in each chunk, and
returns a final unterminated chunk as-is (helper, accumulator holds the
current chunk reversed). -/
def pyReadlinesAux : List Char → List Char → List (List Char)
  | [], [] => []
  | [], acc => [acc.reverse]
  | c :: rest, acc =>
    if c = '\n' then (acc.reverse ++ ['\n']) :: pyReadlinesAux rest []
    else pyReadlinesAux rest (c :: acc)

/-- Python `file.readlines()` on the content after the current offset. -/
def pyReadlines (s : List Char) : List (List Char) :=
  pyReadlinesAux s []

/-- The whitespace set of Python `str.strip()`. -/
def pyIsSpace (c : Char) : Bool :=
  c = ' ' || c = '\t' || c = '\n' || c = '\r' || c = '\x0b' || c = '\x0c'

/-- Python `line.strip()` on a character list. -/
def pyStrip (l : List Char) : List Char :=
  ((l.dropWhile pyIsSpace).reverse.dropWhile pyIsSpace).reverse

/-- `JournalMonitor.read_new_lines` from `src/services/service_gamelog.py`
(lines 96-113), for a fixed current file: seek to `last_position`, run
`readlines()`, remember `tell()` (end of content) as the new position,
and return the stripped non-empty lines.  The file is modelled as its
character content; rotation checking (`check_for_new_file`) changes no
line output when the located file is unchanged and is out of scope here. -/
def read_new_lines (content : List Char) (last_position : Nat) :
    List (List Char) × Nat :=
  let lines := pyReadlines (content.drop last_position)
  ((lines.map pyStrip).filter (fun l => !l.isEmpty), content.length)

/-- A row of `prospected_asteroids` as consumed by the unprocessed-rows
accessors: the autoincrement `id`, the wall-clock capture `timestamp`
column and the `processed` flag. -/
structure DetRow where
  id : Nat
  timestamp : Nat
  material_name : String
  processed : Bool
deriving Repr, DecidableEq

/-- Stable insertion into a list sorted by `le` (model of an SQL
`ORDER BY`). -/
def insertLe {α : Type} (le : α → α → Bool) (r : α) : List α → List α
  | [] => [r]
  | x :: xs => if le r x then r :: x :: xs else x :: insertLe le r xs

/-- Stable insertion sort by `le` (model of an SQL `ORDER BY`). -/
def sortLe {α : Type} (le : α → α → Bool) (l : List α) : List α :=
  l.foldr (insertLe le) []

/-- `ORDER BY timestamp DESC` comparison: `a` may precede `b`. -/
def tsDescLe (a b : DetRow) : Bool :=
  b.timestamp ≤ a.timestamp

/-- `ORDER BY id ASC` comparison: `a` may precede `b`. -/
def idAscLe (a b : DetRow) : Bool :=
  a.id ≤ b.id

/-- `DatabaseManager.get_unprocessed_asteroids` from
`src/core/core_database.py` (lines 367-376):
`WHERE processed = 0 ORDER BY timestamp DESC LIMIT ?`. -/
def get_unprocessed_asteroids_core (limit : Nat) (rows : List DetRow) :
    List DetRow :=
  (sortLe tsDescLe (rows.filter (fun r => !r.processed))).take limit

/-- `DatabaseReader.get_unprocessed_asteroids` from
`src/ed_mining_scanner.py` (lines 267-282):
`WHERE processed = 0 ORDER BY id ASC`, no limit. -/
def get_unprocessed_asteroids_scanner (rows : List DetRow) : List DetRow :=
  sortLe idAscLe (rows.filter (fun r => !r.processed))

/-- Outcome of reading the singleton `service_status` row: the row, a
missing row (fresh database), or a raised `sqlite3.Error`. -/
inductive DbRead (α : Type) where
  | failure
  | missing
  | found (row : α)
deriving Repr, DecidableEq

/-- Python `bool(n)` on an SQLite INTEGER value. -/
def pyBoolInt (n : Int) : Bool :=
  n != 0

/-- The `is_running` answer of `DatabaseReader.get_service_status` from
`src/ed_mining_scanner.py` (lines 306-324): `bool(row['is_running'])`
when the row exists, `{'is_running': False}` when the row is absent,
and the same `False` dictionary from the `except sqlite3.Error` branch. -/
def get_service_status_scanner (d : DbRead ServiceStatus) : Bool :=
  match d with
  | DbRead.failure => false
  | DbRead.missing => false
  | DbRead.found r => pyBoolInt r.is_running

/-- `LogLauncher.is_running` from `src/start.py` (lines 124-131), which
is also `LogReaderManager.is_running` from `src/windows/win_mining.py`
(lines 63-71): `bool(status.get('is_running', 0))` over the dictionary
of `core_database.get_service_status` (empty when the row is absent),
with any exception caught and answered as `False`. -/
def launcher_is_running (d : DbRead ServiceStatus) : Bool :=
  match d with
  | DbRead.failure => false
  | DbRead.missing => false
  | DbRead.found r => pyBoolInt r.is_running

/-- The `ProspectedAsteroid` event of the worked example in
`src/ed_log_reader.py` (lines 680-696): two surface materials plus a
`MotherlodeMaterial`. -/
def exMotherlode : EventRecord :=
  { event := "ProspectedAsteroid"
    timestamp := some "2025-11-29T11:59:51Z"
    materials := some
      [{ name := some "Platinum", proportion := some (51662041 / 1000000 : Rat) },
       { name := some "Praseodymium", proportion := some (11502447 / 1000000 : Rat) }]
    motherlodeMaterial := some "Painite"
    content := some "$AsteroidMaterialContent_Medium;"
    contentLocalised := some "Material Content: Medium"
    remaining := some 100 }

/-- A `ProspectedAsteroid` event with one surface material whose source
proportion is `63.4` (the P5 example of the specification). -/
def exProportion : EventRecord :=
  { event := "ProspectedAsteroid"
    timestamp := some "2025-12-01T10:00:00Z"
    materials := some [{ name := some "Painite", proportion := some (63.4 : Rat) }]
    content := some "$AsteroidMaterialContent_High;"
    contentLocalised := some "Material Content: High"
    remaining := some 90 }

/-- A concrete store state used to evaluate handlers. -/
def sampleStore : Store :=
  { game_state :=
      { commander_name := "Jameson", current_system := "Sol",
        log_file_path := "", last_updated := 0 }
    ship_status :=
      { cargo_capacity := 64, cargo_count := 10, limpet_count := 3,
        commander_credits := 1000, last_updated := 0 }
    asteroids := []
    refined := []
    fleet_carriers := []
    fss_signals := []
    chat := [] }

/-- Claim C1: a ProspectedAsteroid event with N listed materials and a
motherlode material must project to N+1 detection rows, the extra row
having percentage 100, deepcore and motherlode set.  Evaluation at the
repository's own worked example: the `ed_log_reader.py` handler inserts
the claimed 3 = 2+1 rows with exactly one motherlode row of
percentage 100 sharing the surface rows' timestamp/tier/remaining, but
the `service_gamelog.py` handler (which reads the nonexistent
`MotherlodeAmount` key instead of `MotherlodeMaterial`) inserts only the
2 surface rows and no motherlode row at all. -/
theorem c1_motherlode_fanout_eval :
    (handle_ProspectedAsteroid_gamelog exMotherlode "W").length = 2 ∧
    (handle_ProspectedAsteroid_gamelog exMotherlode "W").countP
      (fun r => r.is_deepcore || r.is_motherlode) = 0 ∧
    (handle_prospected_asteroid_edlr exMotherlode).length = 2 + 1 ∧
    (handle_prospected_asteroid_edlr exMotherlode).countP
      (fun r => r.is_motherlode) = 1 ∧
    (handle_prospected_asteroid_edlr exMotherlode).getLast? = some
      { journal_timestamp := "2025-11-29T11:59:51Z", material_name := "Painite",
        percentage := 100, is_motherlode := true, content_level := "Medium",
        is_surface := true, is_deepcore := true, remaining := 100,
        processed := false } ∧
    (handle_prospected_asteroid_edlr exMotherlode).countP
      (fun r => !r.is_deepcore && !r.is_motherlode) = 2 := by
  decide

/-- Claim C2: the stored percentage of a surface material must equal the
event's Proportion unchanged.  Evaluation at Proportion = 63.4: the
`ed_log_reader.py` handler stores 63.4 as claimed, but the
`service_gamelog.py` handler multiplies by 100 and stores 6340 — the
exact double-scaling bug the repository's own comments
(`ed_log_reader.py` lines 719-720) describe as fixed. -/
theorem c2_percentage_rescale_eval :
    (handle_ProspectedAsteroid_gamelog exProportion "W").map
      (fun r => r.percentage) = [6340] ∧
    (6340 : Rat) ≠ 63.4 ∧
    (handle_prospected_asteroid_edlr exProportion).map
      (fun r => r.percentage) = [(63.4 : Rat)] := by
  have h1 : (handle_ProspectedAsteroid_gamelog exProportion "W").map
      (fun r => r.percentage) = [(63.4 : Rat) * 100] := rfl
  have h2 : (63.4 : Rat) * 100 = 6340 := by norm_num
  refine ⟨by rw [h1, h2], by norm_num, rfl⟩

/-- Claim C3 (counterexample): with two matching files where the
lexicographically smaller token has the greater modification time, the
`service_gamelog.py` locator returns the lexicographically smaller file,
and changing only the timestamps changes its result; the
`journal_reader.py` locator behaves the same on creation time. -/
theorem c3_locator_mtime_counterexample :
    find_latest_journal_gamelog
      [{ name := "Journal.0001.log", mtime := 10, ctime := 10 },
       { name := "Journal.0002.log", mtime := 5, ctime := 5 }] =
      some { name := "Journal.0001.log", mtime := 10, ctime := 10 } ∧
    "Journal.0001.log".toList < "Journal.0002.log".toList ∧
    find_latest_journal_gamelog
      [{ name := "Journal.0001.log", mtime := 1, ctime := 10 },
       { name := "Journal.0002.log", mtime := 5, ctime := 5 }] =
      some { name := "Journal.0002.log", mtime := 5, ctime := 5 } ∧
    get_latest_journal_jr
      [{ name := "Journal.0001.log", mtime := 10, ctime := 10 },
       { name := "Journal.0002.log", mtime := 5, ctime := 5 }] =
      some { name := "Journal.0001.log", mtime := 10, ctime := 10 } := by
  decide

theorem pickByKey_mem {α β : Type} [LinearOrder β] (key : α → β) :
    ∀ (xs : List α) (x : α), pickByKey key x xs ∈ x :: xs := by
  intro xs
  induction xs with
  | nil => intro x; simp [pickByKey]
  | cons a l ih =>
    intro x
    have h : pickByKey key x (a :: l) =
        pickByKey key (if key x < key a then a else x) l := by
      simp [pickByKey]
    rw [h]
    rcases List.mem_cons.mp (ih (if key x < key a then a else x)) with h1 | h1
    · rw [h1]
      split
      · exact List.mem_cons_of_mem _ (List.mem_cons_self _ _)
      · exact List.mem_cons_self _ _
    · exact List.mem_cons_of_mem _ (List.mem_cons_of_mem _ h1)

theorem pickByKey_le {α β : Type} [LinearOrder β] (key : α → β) :
    ∀ (xs : List α) (x y : α), y ∈ x :: xs → key y ≤ key (pickByKey key x xs) := by
  intro xs
  induction xs with
  | nil =>
    intro x y hy
    simp only [List.mem_cons, List.not_mem_nil, or_false] at hy
    subst hy
    simp [pickByKey]
  | cons a l ih =>
    intro x y hy
    have h : pickByKey key x (a :: l) =
        pickByKey key (if key x < key a then a else x) l := by
      simp [pickByKey]
    rw [h]
    have hhd : key (if key x < key a then a else x) ≤
        key (pickByKey key (if key x < key a then a else x) l) :=
      ih _ _ (List.mem_cons_self _ _)
    rcases List.mem_cons.mp hy with rfl | h1
    · by_cases hxa : key y < key a
      · exact le_trans (le_of_lt hxa) (by simpa [hxa] using hhd)
      · simpa [hxa] using hhd
    · rcases List.mem_cons.mp h1 with rfl | h2
      · by_cases hxa : key x < key y
        · simpa [hxa] using hhd
        · exact le_trans (not_lt.mp hxa) (by simpa [hxa] using hhd)
      · exact ih _ y (List.mem_cons_of_mem _ h2)

/-- Claim C3 (amended): the `ed_log_reader.py` locator returns the
lexicographically greatest matching filename and its result depends only
on the directory's name list, never on timestamps; the
`service_gamelog.py` locator instead returns a matching file whose
modification time is maximal among the matches. -/
theorem c3_locator_amended :
    (∀ (names : List String) (n : String) (rest : List String),
        names.filter matchesJournalEdlr = n :: rest →
        ∃ m, find_latest_journal_edlr names = some m ∧ m ∈ n :: rest ∧
          ∀ y ∈ n :: rest, y ≤ m) ∧
    (∀ dir dir' : List FileInfo,
        dir.map (fun f => f.name) = dir'.map (fun f => f.name) →
        find_latest_journal_edlr (dir.map (fun f => f.name)) =
          find_latest_journal_edlr (dir'.map (fun f => f.name))) ∧
    (∀ (dir : List FileInfo) (f : FileInfo) (rest : List FileInfo),
        dir.filter (fun g => matchesGlobJournal g.name) = f :: rest →
        ∃ m, find_latest_journal_gamelog dir = some m ∧ m ∈ f :: rest ∧
          ∀ y ∈ f :: rest, y.mtime ≤ m.mtime) := by
  refine ⟨?_, ?_, ?_⟩
  · intro names n rest hf
    refine ⟨pickByKey id n rest, ?_, ?_, ?_⟩
    · simp [find_latest_journal_edlr, hf]
    · exact pickByKey_mem id rest n
    · intro y hy
      exact pickByKey_le id rest n y hy
  · intro dir dir' hn
    rw [hn]
  · intro dir f rest hf
    refine ⟨pickByKey (fun g => g.mtime) f rest, ?_, ?_, ?_⟩
    · simp [find_latest_journal_gamelog, hf]
    · exact pickByKey_mem _ rest f
    · intro y hy
      exact pickByKey_le (fun g => g.mtime) rest f y hy

/-- Witness for `c3_locator_amended` at a concrete two-file directory. -/
theorem c3_locator_amended_witness :
    ∃ m, find_latest_journal_edlr ["Journal.0002.log", "Journal.0001.log"] = some m ∧
      m ∈ ["Journal.0002.log", "Journal.0001.log"] ∧
      ∀ y ∈ ["Journal.0002.log", "Journal.0001.log"], y ≤ m :=
  c3_locator_amended.1 ["Journal.0002.log", "Journal.0001.log"]
    "Journal.0002.log" ["Journal.0001.log"] (by decide)

/-- Claim C4 (counterexample): polling a file whose content is
`"a\nb"` — the final bytes `b` form an unterminated line — returns the
batch `["a", "b"]`: the partial content `b` IS included in this poll's
returned lines, and the position advances past it to end-of-file. -/
theorem c4_unterminated_line_counterexample :
    read_new_lines ['a', '\n', 'b'] 0 = ([['a'], ['b']], 3) ∧
    ['b'] ∈ (read_new_lines ['a', '\n', 'b'] 0).fst ∧
    Char.ofNat 10 ∉ ['b'] := by
  decide

theorem pyReadlinesAux_no_newline :
    ∀ (w acc : List Char), '\n' ∉ w → acc.reverse ++ w ≠ [] →
      pyReadlinesAux w acc = [acc.reverse ++ w] := by
  intro w
  induction w with
  | nil =>
    intro acc hnl hne
    simp only [List.append_nil] at hne ⊢
    cases acc with
    | nil => simp at hne
    | cons c cs => simp [pyReadlinesAux]
  | cons c rest ih =>
    intro acc hnl hne
    have hc : ¬(c = '\n') := fun h => hnl (h ▸ List.mem_cons_self c rest)
    have hr : '\n' ∉ rest := fun h => hnl (List.mem_cons_of_mem c h)
    have step : pyReadlinesAux (c :: rest) acc = pyReadlinesAux rest (c :: acc) := by
      simp [pyReadlinesAux, hc]
    rw [step, ih (c :: acc) hr (by simp)]
    simp

/-- Claim C4 (amended): when the bytes past the last position form a
single unterminated line (no newline), `read_new_lines` returns exactly
that stripped partial content in the current poll, and advances the
position to end-of-file — so the later completed line is never returned
whole. -/
theorem c4_unterminated_tail_amended (done w : List Char)
    (hnl : '\n' ∉ w) (hs : pyStrip w ≠ []) :
    read_new_lines (done ++ w) done.length = ([pyStrip w], done.length + w.length) := by
  have hw : w ≠ [] := by
    intro h
    exact hs (by simp [h, pyStrip])
  have hdrop : (done ++ w).drop done.length = w := List.drop_left done w
  have hlines : pyReadlines w = [w] := by
    rw [pyReadlines, pyReadlinesAux_no_newline w [] hnl (by simpa using hw)]
    simp
  have hne : (pyStrip w).isEmpty = false := by
    rw [List.isEmpty_eq_false]
    exact hs
  simp [read_new_lines, hdrop, hlines, hne, List.length_append]

/-- Witness for `c4_unterminated_tail_amended` at a concrete file state. -/
theorem c4_unterminated_tail_amended_witness :
    read_new_lines (['x', '\n'] ++ ['a', 'b']) (['x', '\n'] : List Char).length =
      ([pyStrip ['a', 'b']], (['x', '\n'] : List Char).length + (['a', 'b'] : List Char).length) :=
  c4_unterminated_tail_amended ['x', '\n'] ['a', 'b'] (by decide) (by decide)

theorem insertLe_perm {α : Type} (le : α → α → Bool) (r : α) :
    ∀ l : List α, (insertLe le r l).Perm (r :: l) := by
  intro l
  induction l with
  | nil => simp [insertLe]
  | cons x xs ih =>
    simp only [insertLe]
    split
    · exact List.Perm.refl _
    · exact (ih.cons x).trans (List.Perm.swap r x xs)

theorem sortLe_perm {α : Type} (le : α → α → Bool) :
    ∀ l : List α, (sortLe le l).Perm l := by
  intro l
  induction l with
  | nil => simp [sortLe]
  | cons x xs ih =>
    simp only [sortLe, List.foldr_cons]
    exact (insertLe_perm le x _).trans (ih.cons x)

theorem insertLe_pairwise {α : Type} (le : α → α → Bool)
    (htot : ∀ a b, le a b = false → le b a = true)
    (htrans : ∀ a b c, le a b = true → le b c = true → le a c = true)
    (r : α) :
    ∀ l : List α, l.Pairwise (fun a b => le a b = true) →
      (insertLe le r l).Pairwise (fun a b => le a b = true) := by
  intro l
  induction l with
  | nil => intro _; simp [insertLe]
  | cons x xs ih =>
    intro hp
    rcases List.pairwise_cons.mp hp with ⟨hx, hxs⟩
    simp only [insertLe]
    cases hle : le r x with
    | true =>
      simp only [if_pos rfl]
      refine List.pairwise_cons.mpr ⟨?_, hp⟩
      intro y hy
      rcases List.mem_cons.mp hy with rfl | hy'
      · exact hle
      · exact htrans r x y hle (hx y hy')
    | false =>
      simp only [Bool.false_eq_true, if_neg, ite_false]
      refine List.pairwise_cons.mpr ⟨?_, ih hxs⟩
      intro y hy
      have hmem : y = r ∨ y ∈ xs := by
        simpa using (insertLe_perm le r xs).mem_iff.mp hy
      rcases hmem with rfl | hy'
      · exact htot y x hle
      · exact hx y hy'

theorem sortLe_pairwise {α : Type} (le : α → α → Bool)
    (htot : ∀ a b, le a b = false → le b a = true)
    (htrans : ∀ a b c, le a b = true → le b c = true → le a c = true) :
    ∀ l : List α, (sortLe le l).Pairwise (fun a b => le a b = true) := by
  intro l
  induction l with
  | nil => simp [sortLe]
  | cons x xs ih =>
    simp only [sortLe, List.foldr_cons]
    exact insertLe_pairwise le htot htrans x _ ih

/-- Claim C5 (counterexample): with two unprocessed rows whose capture
timestamps are 1 and 2, the `core_database.py` accessor returns the
newer row first — `ORDER BY timestamp DESC` — not oldest-first as
claimed. -/
theorem c5_newest_first_counterexample :
    get_unprocessed_asteroids_core 100
      [{ id := 1, timestamp := 1, material_name := "Platinum", processed := false },
       { id := 2, timestamp := 2, material_name := "Painite", processed := false }] =
      [{ id := 2, timestamp := 2, material_name := "Painite", processed := false },
       { id := 1, timestamp := 1, material_name := "Platinum", processed := false }] ∧
    (1 : Nat) < 2 := by
  decide

/-- Claim C5 (amended): the `core_database.py` accessor returns only
`processed = false` rows, ordered newest-first (non-increasing capture
timestamp) and truncated to the caller-supplied limit; the
`ed_mining_scanner.py` accessor returns all `processed = false` rows in
ascending id order with no limit. -/
theorem c5_unprocessed_amended (limit : Nat) (rows : List DetRow) :
    ((∀ r, r ∈ get_unprocessed_asteroids_core limit rows → r.processed = false) ∧
     (get_unprocessed_asteroids_core limit rows).Pairwise
       (fun a b => b.timestamp ≤ a.timestamp) ∧
     (get_unprocessed_asteroids_core limit rows).length ≤ limit) ∧
    ((get_unprocessed_asteroids_scanner rows).Perm
       (rows.filter (fun r => !r.processed)) ∧
     (get_unprocessed_asteroids_scanner rows).Pairwise
       (fun a b => a.id ≤ b.id)) := by
  have htotD : ∀ a b : DetRow, tsDescLe a b = false → tsDescLe b a = true := by
    intro a b h
    simp [tsDescLe] at *
    omega
  have htransD : ∀ a b c : DetRow,
      tsDescLe a b = true → tsDescLe b c = true → tsDescLe a c = true := by
    intro a b c h1 h2
    simp [tsDescLe] at *
    omega
  have htotA : ∀ a b : DetRow, idAscLe a b = false → idAscLe b a = true := by
    intro a b h
    simp [idAscLe] at *
    omega
  have htransA : ∀ a b c : DetRow,
      idAscLe a b = true → idAscLe b c = true → idAscLe a c = true := by
    intro a b c h1 h2
    simp [idAscLe] at *
    omega
  refine ⟨⟨?_, ?_, ?_⟩, ?_, ?_⟩
  · intro r hr
    have hsort : r ∈ sortLe tsDescLe (rows.filter (fun q => !q.processed)) :=
      List.mem_of_mem_take hr
    have hfil : r ∈ rows.filter (fun q => !q.processed) :=
      (sortLe_perm tsDescLe _).mem_iff.mp hsort
    have := (List.mem_filter.mp hfil).2
    simpa using this
  · have hp := sortLe_pairwise tsDescLe htotD htransD
      (rows.filter (fun q => !q.processed))
    have hp' := hp.sublist (List.take_sublist limit _)
    exact hp'.imp (fun h => by simpa [tsDescLe] using h)
  · exact List.length_take_le limit _
  · exact sortLe_perm idAscLe _
  · have hp := sortLe_pairwise idAscLe htotA htransA
      (rows.filter (fun q => !q.processed))
    exact hp.imp (fun h => by simpa [idAscLe] using h)

/-- Witness for `c5_unprocessed_amended` at a concrete store. -/
theorem c5_unprocessed_amended_witness :
    ({ id := 1, timestamp := 5, material_name := "Platinum",
       processed := false } : DetRow).processed = false :=
  (c5_unprocessed_amended 2
    [{ id := 1, timestamp := 5, material_name := "Platinum", processed := false }]).1.1
    { id := 1, timestamp := 5, material_name := "Platinum", processed := false }
    (by decide)

/-- Claim C6 (counterexample): a Loadout event whose per-module
capacity sum is zero (no module carries the field) leaves
`cargo_capacity` at its previous value 64 — the handler's
`if cargo_capacity > 0` guard skips the write — instead of overwriting
it with 0 as the claim requires. -/
theorem c6_loadout_zero_counterexample :
    handle_Loadout { event := "Loadout", modules := some [{ cargoCapacity := none }] }
      7 sampleStore = sampleStore ∧
    sampleStore.ship_status.cargo_capacity = 64 ∧
    loadoutCargoSum [{ cargoCapacity := none }] = 0 := by
  decide

/-- Claim C6 (amended): projecting a Loadout event overwrites
`cargo_capacity` with the per-module capacity sum whenever that sum is
positive (regardless of the previous value); when the sum is zero or
negative, no write happens and the whole store keeps its previous
state. -/
theorem c6_loadout_amended (d : EventRecord) (now : Nat) (s : Store) :
    (0 < loadoutCargoSum (d.modules.getD []) →
      handle_Loadout d now s =
        { s with ship_status :=
            { s.ship_status with
              cargo_capacity := loadoutCargoSum (d.modules.getD [])
              last_updated := now } }) ∧
    (loadoutCargoSum (d.modules.getD []) ≤ 0 → handle_Loadout d now s = s) := by
  constructor
  · intro hpos
    unfold handle_Loadout
    rw [if_pos hpos]
    simp [applySS, update_ship_status]
  · intro hle
    unfold handle_Loadout
    rw [if_neg (by omega)]

/-- Witness for `c6_loadout_amended` with two cargo racks of 16 and 32. -/
theorem c6_loadout_amended_witness :
    handle_Loadout
      { event := "Loadout",
        modules := some [{ cargoCapacity := some 16 }, { cargoCapacity := some 32 }] }
      7 sampleStore =
      { sampleStore with ship_status :=
          { sampleStore.ship_status with cargo_capacity := 48, last_updated := 7 } } := by
  have h := (c6_loadout_amended
    { event := "Loadout",
      modules := some [{ cargoCapacity := some 16 }, { cargoCapacity := some 32 }] }
    7 sampleStore).1 (by decide)
  exact h

/-- Claim C7: the stored chat subtype follows the ordered,
case-insensitive rule list (security/system-defence senders, then
pirate/wing senders, then system/local channel, then squadron channel,
then friend channel, else other); in particular sender
"System Defence Patrol" gives `sec` on any channel, and a squadron
channel with an unrelated sender gives `sq`.  The final clause ties the
classification to the appended row of `add_chat_message`. -/
theorem c7_chat_classification (ch s : String) :
    (chat_subtype ch "System Defence Patrol" = "sec") ∧
    (strContains (lowerStr s) "security" = false →
     strContains (lowerStr s) "system defence" = false →
     strContains (lowerStr s) "pirate" = false →
     strContains (lowerStr s) "wing" = false →
     chat_subtype "squadron" s = "sq") ∧
    ((strContains (lowerStr s) "security" || strContains (lowerStr s) "system defence") = true →
      chat_subtype ch s = "sec") ∧
    ((strContains (lowerStr s) "security" || strContains (lowerStr s) "system defence") = false →
     (strContains (lowerStr s) "pirate" || strContains (lowerStr s) "wing") = true →
      chat_subtype ch s = "pirate") ∧
    ((strContains (lowerStr s) "security" || strContains (lowerStr s) "system defence") = false →
     (strContains (lowerStr s) "pirate" || strContains (lowerStr s) "wing") = false →
     (lowerStr ch = "system" ∨ lowerStr ch = "local") →
      chat_subtype ch s = "system") ∧
    ((strContains (lowerStr s) "security" || strContains (lowerStr s) "system defence") = false →
     (strContains (lowerStr s) "pirate" || strContains (lowerStr s) "wing") = false →
     lowerStr ch = "squadron" →
      chat_subtype ch s = "sq") ∧
    ((strContains (lowerStr s) "security" || strContains (lowerStr s) "system defence") = false →
     (strContains (lowerStr s) "pirate" || strContains (lowerStr s) "wing") = false →
     lowerStr ch = "friend" →
      chat_subtype ch s = "friends") ∧
    ((strContains (lowerStr s) "security" || strContains (lowerStr s) "system defence") = false →
     (strContains (lowerStr s) "pirate" || strContains (lowerStr s) "wing") = false →
     lowerStr ch ≠ "system" → lowerStr ch ≠ "local" →
     lowerStr ch ≠ "squadron" → lowerStr ch ≠ "friend" →
      chat_subtype ch s = "other") ∧
    (∀ (d : EventRecord) (chat : List ChatRow),
      (add_chat_message d chat).map (fun r => r.subtype) =
        chat.map (fun r => r.subtype) ++
          [chat_subtype (d.channel.getD "unknown") (d.fromLocalised.getD "Unknown")]) := by
  refine ⟨?_, ?_, ?_, ?_, ?_, ?_, ?_, ?_, ?_⟩
  · have h1 : (strContains (lowerStr "System Defence Patrol") "security" ||
        strContains (lowerStr "System Defence Patrol") "system defence") = true := by
      decide
    simp only [chat_subtype]
    rw [if_pos h1]
  · intro h1 h2 h3 h4
    simp [chat_subtype, h1, h2, h3, h4]
    decide
  · intro h1
    simp only [chat_subtype]
    rw [if_pos h1]
  · intro h1 h2
    simp only [chat_subtype]
    rw [if_neg (by simp [h1]), if_pos h2]
  · intro h1 h2 h3
    rcases h3 with h3 | h3 <;>
      simp [chat_subtype, h1, h2, h3]
  · intro h1 h2 h3
    simp [chat_subtype, h1, h2, h3]
  · intro h1 h2 h3
    simp [chat_subtype, h1, h2, h3]
  · intro h1 h2 h3 h4 h5 h6
    simp [chat_subtype, h1, h2, h3, h4, h5, h6]
  · intro d chat
    simp [add_chat_message]

/-- Witness for `c7_chat_classification`: the two concrete instances of
the claim. -/
theorem c7_chat_classification_witness :
    chat_subtype "local" "System Defence Patrol" = "sec" ∧
    chat_subtype "squadron" "CMDR Alice" = "sq" :=
  ⟨(c7_chat_classification "local" "CMDR Alice").1,
   (c7_chat_classification "local" "CMDR Alice").2.1
     (by decide) (by decide) (by decide) (by decide)⟩

/-- Claim C8: within one polled batch, a line that fails structural
parsing is discarded at line granularity: processing the whole batch
equals processing the lines before it and then the lines after it (so
every other line is still decoded and projected), the malformed line
performs no store mutation, and processing is total — the model never
aborts, matching the handler's `except` branches. -/
theorem c8_malformed_line_resilience :
    ∀ (pre post : List (Option EventRecord)) (now : Nat) (now_iso : String)
      (s : Store),
      processBatch (pre ++ none :: post) now now_iso s =
        processBatch post now now_iso (processBatch pre now now_iso s) ∧
      process_line none now now_iso (processBatch pre now now_iso s) =
        processBatch pre now now_iso s := by
  intro pre post now now_iso s
  constructor
  · simp [processBatch, List.foldl_append, process_line]
  · rfl

/-- Claim C9: for every partial update of a singleton store entity
(game state, ship status, service status — by the kwargs-based writers
of `core_database.py`, and game state by the truthiness-guarded writer
of `ed_log_reader.py`), every column not named in the update keeps
exactly its previous value. -/
theorem c9_partial_update_frame :
    (∀ (u : GameStateUpdate) (now : Nat) (g g' : GameState),
        update_game_state u now g = Except.ok g' →
        (u.commander_name = none → g'.commander_name = g.commander_name) ∧
        (u.current_system = none → g'.current_system = g.current_system) ∧
        (u.log_file_path = none → g'.log_file_path = g.log_file_path)) ∧
    (∀ (u : ShipStatusUpdate) (now : Nat) (s s' : ShipStatus),
        update_ship_status u now s = Except.ok s' →
        (u.cargo_capacity = none → s'.cargo_capacity = s.cargo_capacity) ∧
        (u.cargo_count = none → s'.cargo_count = s.cargo_count) ∧
        (u.limpet_count = none → s'.limpet_count = s.limpet_count) ∧
        (u.commander_credits = none → s'.commander_credits = s.commander_credits)) ∧
    (∀ (u : ServiceStatusUpdate) (v v' : ServiceStatus),
        update_service_status u v = Except.ok v' →
        (u.is_running = none → v'.is_running = v.is_running) ∧
        (u.pid = none → v'.pid = v.pid) ∧
        (u.last_heartbeat = none → v'.last_heartbeat = v.last_heartbeat) ∧
        (u.journal_file = none → v'.journal_file = v.journal_file) ∧
        (u.scan_interval = none → v'.scan_interval = v.scan_interval)) ∧
    (∀ (commander system log_path : Option String) (now : Nat) (g : GameState),
        (commander = none →
          (update_game_state_edlr commander system log_path now g).commander_name =
            g.commander_name) ∧
        (system = none →
          (update_game_state_edlr commander system log_path now g).current_system =
            g.current_system) ∧
        (log_path = none →
          (update_game_state_edlr commander system log_path now g).log_file_path =
            g.log_file_path)) := by
  refine ⟨?_, ?_, ?_, ?_⟩
  · intro u now g g' h
    unfold update_game_state at h
    split at h
    · exact absurd h (by simp)
    · rw [Except.ok.injEq] at h
      subst h
      refine ⟨?_, ?_, ?_⟩ <;> intro hnone <;> simp [hnone]
  · intro u now s s' h
    unfold update_ship_status at h
    split at h
    · exact absurd h (by simp)
    · rw [Except.ok.injEq] at h
      subst h
      refine ⟨?_, ?_, ?_, ?_⟩ <;> intro hnone <;> simp [hnone]
  · intro u v v' h
    unfold update_service_status at h
    split at h
    · exact absurd h (by simp)
    · rw [Except.ok.injEq] at h
      subst h
      refine ⟨?_, ?_, ?_, ?_, ?_⟩ <;> intro hnone <;> simp [hnone]
  · intro commander system log_path now g
    refine ⟨?_, ?_, ?_⟩ <;> intro hnone <;> unfold update_game_state_edlr <;> split
    · simp [hnone, pyTruthyStr]
    · rfl
    · simp [hnone, pyTruthyStr]
    · rfl
    · simp [hnone, pyTruthyStr]
    · rfl

/-- Witness for `c9_partial_update_frame`: updating only the commander
name leaves the current system untouched. -/
theorem c9_partial_update_frame_witness :
    ∃ g' : GameState,
      update_game_state { commander_name := some "Jameson" } 5
        ⟨"Unknown", "Sol", "", 0⟩ = Except.ok g' ∧
      g'.current_system = "Sol" := by
  refine ⟨⟨"Jameson", "Sol", "", 5⟩, rfl, ?_⟩
  exact (c9_partial_update_frame.1 { commander_name := some "Jameson" } 5
    ⟨"Unknown", "Sol", "", 0⟩ ⟨"Jameson", "Sol", "", 5⟩ rfl).2.1 rfl

/-- Claim C10: the is-running query is always a boolean derived solely
from the store's service-status record: `false` when the record is
absent, `false` when the status read raises, and `bool(is_running)`
when the row exists — for both the `ed_mining_scanner.py` reader and
the launcher helpers of `start.py` / `win_mining.py`. -/
theorem c10_is_running_store_only :
    (get_service_status_scanner (DbRead.missing) = false) ∧
    (get_service_status_scanner (DbRead.failure) = false) ∧
    (∀ r : ServiceStatus,
      get_service_status_scanner (DbRead.found r) = pyBoolInt r.is_running) ∧
    (launcher_is_running (DbRead.missing) = false) ∧
    (launcher_is_running (DbRead.failure) = false) ∧
    (∀ r : ServiceStatus,
      launcher_is_running (DbRead.found r) = pyBoolInt r.is_running) :=
  ⟨rfl, rfl, fun _ => rfl, rfl, rfl, fun _ => rfl⟩
